import Mathlib

/-!
Verification of the keybase chat terminal client (`keybase_chat.py`):
a shallow embedding of the message deduplicator/merger, the poll cycle,
the command interpreter of the chat screen, and the conversation
display-name derivation, together with theorems settling the frozen
claims about the specification.
-/

namespace KeybaseChat

/-- Python `str.strip()`: remove leading and trailing whitespace. -/
def pyStrip (s : String) : String :=
  String.mk (((s.data.dropWhile Char.isWhitespace).reverse.dropWhile Char.isWhitespace).reverse)

/-- Python `str.lower()` (ASCII). -/
def pyLower (s : String) : String := String.mk (s.data.map Char.toLower)

/-- Python `str.startswith("/")`. -/
def beginsWithSlash (s : String) : Bool :=
  match s.data with
  | '/' :: _ => true
  | _ => false

/-- Splitting a character list at every occurrence of a separator
character (auxiliary to `pySplit`). -/
def splitOnCharAux (c : Char) : List Char → List (List Char)
  | [] => [[]]
  | x :: xs =>
    let r := splitOnCharAux c xs
    if x = c then [] :: r
    else
      match r with
      | [] => [[x]]
      | y :: ys => (x :: y) :: ys

/-- Python `str.split(c)` for a single-character separator: splitting the
empty string yields `[""]`, and every separator occurrence produces a
field. -/
def pySplit (s : String) (c : Char) : List String :=
  (splitOnCharAux c s.data).map String.mk

/-- Identifier extraction, embedding `re.match(r"\[(\d+)\]", line)` used at
lines 243 and 268 of `keybase_chat.py`: the line must start with a literal
opening bracket, followed by one or more digits, followed by a closing
bracket; the captured group (the digit string, not its numeric value) is
returned.  (`\d` is modelled by ASCII `Char.isDigit`.) -/
def extractId (line : String) : Option String :=
  match line.data with
  | '[' :: rest =>
    match rest.span Char.isDigit with
    | ([], _) => none
    | (ds, ']' :: _) => some (String.mk ds)
    | _ => none
  | _ => none

/-- Embedding of the Python `set.add` on `seen_ids` over a list model:
adding an element already present leaves the set unchanged. -/
def addSeen (s : List String) (id : String) : List String :=
  if id ∈ s then s else id :: s

/-- The merger state of a chat screen: `seen_ids` and the lines appended
to `message_list` (in order). -/
structure MergeState where
  seen : List String
  display : List String
deriving DecidableEq

/-- One line of the initial bulk-load loop, `ChatScreen.on_mount`
lines 242-246: if the line carries an identifier it is recorded in
`seen_ids`; the line itself is appended to the display unconditionally. -/
def mountMergeLine (st : MergeState) (line : String) : MergeState :=
  match extractId line with
  | some id => { seen := addSeen st.seen id, display := st.display ++ [line] }
  | none => { seen := st.seen, display := st.display ++ [line] }

/-- The initial bulk-load loop over all fetched lines
(`for line in prev.splitlines()`). -/
def mountMerge (st : MergeState) : List String → MergeState
  | [] => st
  | l :: ls => mountMerge (mountMergeLine st l) ls

/-- One line of the poll-batch loop, `ChatScreen.poll_iteration`
lines 267-274: only lines carrying an identifier are considered (`if m:`);
such a line is appended, and its identifier recorded, exactly when the
identifier is not already in `seen_ids`; all other lines leave the state
unchanged. -/
def pollMergeLine (st : MergeState) (line : String) : MergeState :=
  match extractId line with
  | some id =>
    if id ∈ st.seen then st
    else { seen := addSeen st.seen id, display := st.display ++ [line] }
  | none => st

/-- The poll-batch loop over all fetched lines (`for line in new_lines:`). -/
def pollMerge (st : MergeState) : List String → MergeState
  | [] => st
  | l :: ls => pollMerge (pollMergeLine st l) ls

/-- A sequence of poll batches fed to the merger, one `poll_iteration`
merge after another. -/
def pollMergeMany (st : MergeState) : List (List String) → MergeState
  | [] => st
  | b :: bs => pollMergeMany (pollMerge st b) bs

/-- The per-conversation chat-session state relevant to polling:
`seen_ids`, the displayed lines, and `last_poll_timestamp` (the poll
cursor, modelled as a natural-number timestamp). -/
structure ChatState where
  seen : List String
  display : List String
  last_poll_timestamp : Nat
deriving DecidableEq

/-- `ChatScreen.poll_iteration` lines 252-276: the fetch result is either
an error (`proc.returncode != 0`, carrying the stderr text) or the list of
fetched lines.  The cursor is set to `now` (line 261) before the
return-code check, hence on success and failure alike; on failure the
function returns, on success the batch is merged. -/
def poll_iteration (st : ChatState) (now : Nat)
    (fetch : Except String (List String)) : ChatState :=
  let st1 : ChatState := { st with last_poll_timestamp := now }
  match fetch with
  | .error _ => st1
  | .ok lines =>
    let m := pollMerge { seen := st1.seen, display := st1.display } lines
    { seen := m.seen, display := m.display, last_poll_timestamp := now }

/-- A sequence of poll attempts: each attempt has the wall-clock time read
at line 259 and the fetch outcome. -/
def run_polls (st : ChatState) : List (Nat × Except String (List String)) → ChatState
  | [] => st
  | (t, f) :: rest => run_polls (poll_iteration st t f) rest

/-- The successive values of the poll cursor after each attempt of a
sequence. -/
def cursor_trace (st : ChatState) : List (Nat × Except String (List String)) → List Nat
  | [] => []
  | (t, f) :: rest =>
    (poll_iteration st t f).last_poll_timestamp :: cursor_trace (poll_iteration st t f) rest

/-- The channel metadata of a conversation as used by the client
(`conv.get("channel", {})`). -/
structure Channel where
  members_type : String
  name : String
  topic_name : String
deriving DecidableEq

/-- A conversation snapshot: its id and channel metadata. -/
structure Conversation where
  id : String
  channel : Channel
deriving DecidableEq

/-- `conversation_display_name` lines 76-86: team conversations render as
team name plus topic; otherwise the comma-separated peer list is split,
each name stripped, the current user filtered out, and, when the filter
leaves nothing, the full (stripped) list is used instead. -/
def conversation_display_name (conv : Conversation) (current_user : String) : String :=
  if conv.channel.members_type = "team" then
    "Team: " ++ conv.channel.name ++ " (Topic: " ++ conv.channel.topic_name ++ ")"
  else
    let names_list := (pySplit conv.channel.name ',').map pyStrip
    let filtered := names_list.filter (fun n => n != current_user)
    let filtered2 := if filtered.isEmpty then names_list else filtered
    String.intercalate "," filtered2

/-- `get_conversation_spec` lines 88-93. -/
def get_conversation_spec (conv : Conversation) : String :=
  if conv.channel.members_type = "team" then
    conv.channel.name ++ "," ++ conv.channel.topic_name
  else conv.channel.name

/-- The observable effects of the chat-screen input handler: lines
appended to `message_list`, screen-stack operations, the teardown actions
of `action_pop_chat`/`action_quit_app` (clearing `self.running`,
cancelling `listen_task`, exiting the app), the Backend Gateway
subprocess calls, the out-of-band `poll_iteration`, and pushing a chat
screen (only ever done by the conversation-selection screen). -/
inductive Effect where
  | displayLine : String → Effect
  | popScreen : Effect
  | appExit : Effect
  | setRunningFalse : Effect
  | cancelListen : Effect
  | sendCall : String → String → Effect
  | attachCall : String → String → Effect
  | downloadCall : String → String → String → Effect
  | makeDirs : String → Effect
  | pollCycle : Effect
  | pushChat : String → Effect
deriving DecidableEq

/-- The configuration fields that the command handlers read. -/
structure Config where
  download_path : String

/-- The external environment a single input submission runs against:
which local paths exist, whether the download directory exists, and the
outcome of each kind of Backend Gateway call (`Except.error e` models a
non-zero exit with stderr `e`). -/
structure CmdEnv where
  fileExists : String → Bool
  downloadDirExists : Bool
  sendOutcome : Except String Unit
  attachOutcome : Except String Unit
  downloadOutcome : Except String Unit

/-- A single-quote character as a string (the quoting used by
`attach_file_cmd`'s error message). -/
def squote : String := String.mk [Char.ofNat 39]

/-- `attach_file_cmd` lines 125-137: if the path does not exist locally,
return the descriptive message without any gateway call; otherwise issue
the upload call and return its result text (error text carries the stderr
detail).  Result: the text displayed, and the gateway effects issued. -/
def attach_file_cmd (env : CmdEnv) (conv : Conversation) (file_path : String) :
    String × List Effect :=
  if env.fileExists file_path = false then
    ("File " ++ squote ++ file_path ++ squote ++ " does not exist.", [])
  else
    match env.attachOutcome with
    | .error e =>
      ("Error attaching file: " ++ e, [.attachCall (get_conversation_spec conv) file_path])
    | .ok _ =>
      ("File attached successfully.", [.attachCall (get_conversation_spec conv) file_path])

/-- `download_file_cmd` lines 139-153: ensure the download directory
exists, call the gateway download with outfile `<download_path>/<id>`,
and return its result text (error text carries the stderr detail). -/
def download_file_cmd (env : CmdEnv) (conv : Conversation) (file_identifier : String)
    (config : Config) : String × List Effect :=
  let spec := get_conversation_spec conv
  let download_dir := config.download_path
  let dirEffects : List Effect :=
    if env.downloadDirExists then [] else [.makeDirs download_dir]
  let out_file := download_dir ++ "/" ++ file_identifier
  match env.downloadOutcome with
  | .error e =>
    ("Error downloading file: " ++ e,
      dirEffects ++ [.downloadCall spec file_identifier out_file])
  | .ok _ =>
    ("File downloaded successfully to " ++ out_file ++ ".",
      dirEffects ++ [.downloadCall spec file_identifier out_file])

/-- `send_message_cmd` lines 108-123: issues the send call and awaits it,
but never inspects `returncode`, `stdout` or `stderr`; it produces no
result text whatever the outcome (hence the environment is unused). -/
def send_message_cmd (_env : CmdEnv) (conversation_id message : String) : List Effect :=
  [.sendCall conversation_id message]

/-- `get_help_text` lines 155-163. -/
def get_help_text : String :=
  "Commands:\n" ++
  "  /help                  - Show this help message.\n" ++
  "  /cc [conversation]     - Change channel. With an argument, switches to that conversation.\n" ++
  "  /af <file_path>        - Attach a file to the conversation.\n" ++
  "  /df <file_identifier>  - Download a file (provide file/message ID).\n" ++
  "  /quit                  - Quit the application.\n"

/-- Python `str.split(maxsplit=1)`: skip leading whitespace, take the
first whitespace-free token, skip the following whitespace run, and
return the token together with the remainder (the empty remainder models
`parts[1] if len(parts) > 1 else ""`). -/
def splitMaxsplit1 (s : String) : String × String :=
  let l := s.data.dropWhile Char.isWhitespace
  let tok := l.takeWhile (fun c => !c.isWhitespace)
  let rest := (l.drop tok.length).dropWhile Char.isWhitespace
  (String.mk tok, String.mk rest)

/-- `ChatScreen.action_pop_chat` lines 286-291, the `back` teardown:
clear `self.running`, cancel `listen_task`, pop the screen. -/
def action_pop_chat : List Effect :=
  [.setRunningFalse, .cancelListen, .popScreen]

/-- `ChatScreen.on_input_submitted` lines 300-337 as the list of effects
produced for one submitted input value.  The input is stripped; slash
input is split into a lower-cased command token and an argument; anything
else is sent verbatim (as stripped) followed by one immediate
`poll_iteration`. -/
def on_input_submitted (conv : Conversation) (config : Config) (env : CmdEnv)
    (value : String) : List Effect :=
  let user_input := pyStrip value
  if beginsWithSlash user_input then
    let parts := splitMaxsplit1 user_input
    let cmd := pyLower parts.1
    let arg := parts.2
    if cmd = "/help" then [.displayLine get_help_text]
    else if cmd = "/quit" then [.setRunningFalse, .cancelListen, .appExit]
    else if cmd = "/cc" then
      if arg ≠ "" then
        [.displayLine ("Switching to conversation: " ++ arg), .popScreen]
      else [.popScreen]
    else if cmd = "/af" then
      if arg ≠ "" then
        let r := attach_file_cmd env conv arg
        r.2 ++ [.displayLine r.1]
      else [.displayLine "Usage: /af <file_path>"]
    else if cmd = "/df" then
      if arg ≠ "" then
        let r := download_file_cmd env conv arg config
        r.2 ++ [.displayLine r.1]
      else [.displayLine "Usage: /df <file_identifier>"]
    else [.displayLine "Unknown command. Type /help for help."]
  else
    send_message_cmd env conv.id user_input ++ [.pollCycle]

/-- The evolution of `seen_ids` caused by one fetched line; both the
bulk-load loop and the poll loop perform exactly this update. -/
def seenStep (s : List String) (line : String) : List String :=
  match extractId line with
  | some id => addSeen s id
  | none => s

/-- Session invariant of the poll merge relative to a seeded set `s0`:
the identifiers of the displayed lines are pairwise distinct, each of
them is recorded in `seen_ids` and none of them comes from `s0`, and
`s0` stays inside `seen_ids`. -/
def GoodState (s0 : List String) (st : MergeState) : Prop :=
  (st.display.filterMap extractId).Nodup ∧
  (∀ id ∈ st.display.filterMap extractId, id ∈ st.seen ∧ id ∉ s0) ∧
  (∀ id ∈ s0, id ∈ st.seen)

/-- A sample conversation fixture. -/
def sampleConv : Conversation := ⟨"cid0", ⟨"impteamnative", "alice,bob", ""⟩⟩

/-- A sample configuration fixture. -/
def sampleConfig : Config := ⟨"./downloads"⟩

/-- An environment where no local file exists and every gateway call
succeeds. -/
def sampleEnv : CmdEnv := ⟨fun _ => false, true, .ok (), .ok (), .ok ()⟩

/-- A non-team conversation whose peer list is exactly the current user
(`alice` chatting with themself). -/
def selfConv : Conversation := ⟨"cid1", ⟨"impteamnative", "alice", "t"⟩⟩

/-- An environment whose send call fails with stderr `boom`. -/
def envSendFail : CmdEnv := ⟨fun _ => true, true, .error "boom", .ok (), .ok ()⟩

/-- An environment where every local file exists and the attach call
fails with stderr `boom`. -/
def envAttachFail : CmdEnv := ⟨fun _ => true, true, .ok (), .error "boom", .ok ()⟩

/-- An environment where the download call fails with stderr `dlerr`. -/
def envDownloadFail : CmdEnv := ⟨fun _ => true, true, .ok (), .ok (), .error "dlerr"⟩

/-! ## Helper lemmas about the merger -/

lemma mountMergeLine_display (st : MergeState) (l : String) :
    (mountMergeLine st l).display = st.display ++ [l] := by
  unfold mountMergeLine
  cases extractId l <;> rfl

lemma mountMergeLine_seen (st : MergeState) (l : String) :
    (mountMergeLine st l).seen = seenStep st.seen l := by
  unfold mountMergeLine seenStep
  cases extractId l <;> rfl

lemma pollMergeLine_seen (st : MergeState) (l : String) :
    (pollMergeLine st l).seen = seenStep st.seen l := by
  unfold pollMergeLine seenStep
  cases h : extractId l with
  | none => rfl
  | some id =>
    by_cases hm : id ∈ st.seen
    · simp [hm, addSeen]
    · simp [hm]

lemma mountMerge_pollMerge_seen (lines : List String) :
    ∀ st1 st2 : MergeState, st1.seen = st2.seen →
      (mountMerge st1 lines).seen = (pollMerge st2 lines).seen := by
  induction lines with
  | nil => intro st1 st2 h; exact h
  | cons l ls ih =>
    intro st1 st2 h
    exact ih _ _ (by rw [mountMergeLine_seen, pollMergeLine_seen, h])

lemma mountMerge_display (lines : List String) :
    ∀ st : MergeState, (mountMerge st lines).display = st.display ++ lines := by
  induction lines with
  | nil => intro st; simp [mountMerge]
  | cons l ls ih =>
    intro st
    show (mountMerge (mountMergeLine st l) ls).display = st.display ++ (l :: ls)
    rw [ih, mountMergeLine_display]
    simp

/-! ## Claim C1 -/

/-- C1 counterexample: the claim "a line from which no identifier can be
extracted is appended to the display … for every poll batch" is false: a
successful poll whose batch is the single identifier-less line
`"Connected."` appends nothing, even with an empty Seen-ID Set. -/
theorem poll_drops_identifierless_line_cex :
    extractId "Connected." = none ∧
    (poll_iteration ⟨[], [], 0⟩ 1 (Except.ok ["Connected."])).display = [] := by decide

/-- C1 (amended): a line without an extractable identifier is always
appended during the initial bulk load, but during a poll batch it is
always discarded (the poll loop ignores lines that do not match the
identifier pattern). -/
theorem identifierless_mount_append_poll_drop (st : MergeState) (line : String)
    (h : extractId line = none) :
    (mountMergeLine st line).display = st.display ++ [line] ∧
    pollMergeLine st line = st := by
  refine ⟨mountMergeLine_display st line, ?_⟩
  unfold pollMergeLine
  rw [h]

/-- Witness for C1's amended theorem at the line `"Connected."`. -/
theorem identifierless_mount_append_poll_drop_witness :
    (mountMergeLine ⟨["5"], ["x"]⟩ "Connected.").display = ["x"] ++ ["Connected."] ∧
    pollMergeLine ⟨["5"], ["x"]⟩ "Connected." = ⟨["5"], ["x"]⟩ :=
  identifierless_mount_append_poll_drop ⟨["5"], ["x"]⟩ "Connected." (by decide)

/-! ## Claim C2 -/

/-- C2 counterexample: the bulk-load merge and the poll merge are not the
same function: from Seen-ID Set `{"1"}`, the batch
`["[1] hi", "Connected."]` is appended in full by the bulk load but
appended not at all by the poll merge. -/
theorem mount_poll_merge_differ_cex :
    (mountMerge ⟨["1"], []⟩ ["[1] hi", "Connected."]).display = ["[1] hi", "Connected."] ∧
    (pollMerge ⟨["1"], []⟩ ["[1] hi", "Connected."]).display = [] ∧
    (mountMerge ⟨["1"], []⟩ ["[1] hi", "Connected."]).display ≠
      (pollMerge ⟨["1"], []⟩ ["[1] hi", "Connected."]).display := by decide

/-- C2 (amended): for every input sequence and starting Seen-ID Set the
two paths produce the same resulting Seen-ID Set, but not the same
appended lines: the initial bulk load appends every fetched line
unconditionally (deduplicating nothing), while the poll merge appends
only identifier-bearing unseen lines. -/
theorem mount_poll_same_seen_mount_appends_all (st : MergeState) (lines : List String) :
    (mountMerge st lines).seen = (pollMerge st lines).seen ∧
    (mountMerge st lines).display = st.display ++ lines :=
  ⟨mountMerge_pollMerge_seen lines st st rfl, mountMerge_display lines st⟩

/-! ## Claim C9 -/

/-- C9: deduplication compares the extracted identifier as the exact
digit string, not its numeric value: two lines with textually different
identifiers are both appended by the poll merge whenever neither digit
string is in the Seen-ID Set, regardless of any numeric relationship. -/
theorem dedup_by_exact_digit_string (st : MergeState) (l1 l2 id1 id2 : String)
    (h1 : extractId l1 = some id1) (h2 : extractId l2 = some id2)
    (hne : id1 ≠ id2) (hn1 : id1 ∉ st.seen) (hn2 : id2 ∉ st.seen) :
    (pollMerge st [l1, l2]).display = st.display ++ [l1, l2] := by
  have s1 : pollMergeLine st l1 = ⟨id1 :: st.seen, st.display ++ [l1]⟩ := by
    simp [pollMergeLine, h1, hn1, addSeen]
  have hmem : id2 ∉ id1 :: st.seen := by
    intro hm
    rcases List.mem_cons.mp hm with h | h
    · exact hne h.symm
    · exact hn2 h
  have s2 : pollMergeLine ⟨id1 :: st.seen, st.display ++ [l1]⟩ l2 =
      ⟨id2 :: id1 :: st.seen, st.display ++ [l1] ++ [l2]⟩ := by
    simp [pollMergeLine, h2, hmem, addSeen]
  show (pollMerge (pollMergeLine st l1) [l2]).display = st.display ++ [l1, l2]
  rw [s1]
  show (pollMergeLine ⟨id1 :: st.seen, st.display ++ [l1]⟩ l2).display = st.display ++ [l1, l2]
  rw [s2]
  simp

/-- Witness for C9 at `"[07] hi"` and `"[7] there"`: the two leading
tokens are numerically equal but textually different, and both lines are
appended. -/
theorem dedup_by_exact_digit_string_witness :
    (pollMerge ⟨[], []⟩ ["[07] hi", "[7] there"]).display = [] ++ ["[07] hi", "[7] there"] :=
  dedup_by_exact_digit_string ⟨[], []⟩ "[07] hi" "[7] there" "07" "7"
    (by decide) (by decide) (by decide) (by decide) (by decide)

/-! ## Claim C4 -/

/-- C4: the poll cursor is set to the attempt's current time after every
poll attempt, fetch success and fetch failure alike; consequently the
cursor trace of any attempt sequence is exactly the sequence of attempt
times, and it is monotonically non-decreasing whenever the attempt times
are (wall-clock time does not run backwards). -/
theorem poll_cursor_always_advances :
    (∀ (st : ChatState) (now : Nat) (fetch : Except String (List String)),
      (poll_iteration st now fetch).last_poll_timestamp = now) ∧
    ∀ (st : ChatState) (attempts : List (Nat × Except String (List String))),
      cursor_trace st attempts = attempts.map Prod.fst ∧
      (List.Chain' (· ≤ ·) (st.last_poll_timestamp :: attempts.map Prod.fst) →
        List.Chain' (· ≤ ·) (st.last_poll_timestamp :: cursor_trace st attempts)) := by
  have hts : ∀ (st : ChatState) (now : Nat) (fetch : Except String (List String)),
      (poll_iteration st now fetch).last_poll_timestamp = now := by
    intro st now fetch
    cases fetch <;> rfl
  refine ⟨hts, ?_⟩
  have htrace : ∀ (attempts : List (Nat × Except String (List String))) (st : ChatState),
      cursor_trace st attempts = attempts.map Prod.fst := by
    intro attempts
    induction attempts with
    | nil => intro st; rfl
    | cons a rest ih =>
      intro st
      obtain ⟨t, f⟩ := a
      show (poll_iteration st t f).last_poll_timestamp :: cursor_trace (poll_iteration st t f) rest =
        t :: rest.map Prod.fst
      rw [hts, ih]
  intro st attempts
  exact ⟨htrace attempts st, fun h => by rwa [htrace attempts st]⟩

/-- Witness for C4 at a failing attempt (time 3) followed by a
successful one (time 7), starting from cursor 2. -/
theorem poll_cursor_always_advances_witness :
    cursor_trace ⟨[], [], 2⟩ [(3, Except.error "boom"), (7, Except.ok ["[1] a"])] =
      [(3, Except.error "boom"), (7, Except.ok ["[1] a"])].map Prod.fst ∧
    List.Chain' (· ≤ ·) ((2 : Nat) ::
      cursor_trace ⟨[], [], 2⟩ [(3, Except.error "boom"), (7, Except.ok ["[1] a"])]) :=
  ⟨(poll_cursor_always_advances.2 ⟨[], [], 2⟩ _).1,
    (poll_cursor_always_advances.2 ⟨[], [], 2⟩
      [(3, Except.error "boom"), (7, Except.ok ["[1] a"])]).2
      (by simp [List.chain'_cons])⟩

/-! ## Helper lemmas for Claim C3 -/

lemma pollMergeLine_seen_mono (st : MergeState) (l : String) :
    ∀ id ∈ st.seen, id ∈ (pollMergeLine st l).seen := by
  intro id hid
  cases h : extractId l with
  | none => simpa [pollMergeLine, h] using hid
  | some i =>
    by_cases hm : i ∈ st.seen
    · simpa [pollMergeLine, h, hm] using hid
    · simp [pollMergeLine, h, hm, addSeen]
      exact Or.inr hid

lemma pollMerge_seen_mono (lines : List String) :
    ∀ (st : MergeState), ∀ id ∈ st.seen, id ∈ (pollMerge st lines).seen := by
  induction lines with
  | nil => intro st id hid; exact hid
  | cons l ls ih =>
    intro st id hid
    exact ih _ _ (pollMergeLine_seen_mono st l id hid)

lemma pollMergeLine_seen_new (st : MergeState) (l i : String) (h : extractId l = some i) :
    i ∈ (pollMergeLine st l).seen := by
  by_cases hm : i ∈ st.seen
  · simp [pollMergeLine, h, hm]
  · simp [pollMergeLine, h, hm, addSeen]

lemma pollMerge_seen_contains (lines : List String) :
    ∀ (st : MergeState) (l : String), l ∈ lines → ∀ i, extractId l = some i →
      i ∈ (pollMerge st lines).seen := by
  induction lines with
  | nil => intro st l hl; cases hl
  | cons x xs ih =>
    intro st l hl i hi
    rcases List.mem_cons.mp hl with h | h
    · subst h
      exact pollMerge_seen_mono xs _ i (pollMergeLine_seen_new st l i hi)
    · exact ih _ l h i hi

lemma pollMerge_noop (lines : List String) :
    ∀ st : MergeState, (∀ l ∈ lines, ∀ i, extractId l = some i → i ∈ st.seen) →
      pollMerge st lines = st := by
  induction lines with
  | nil => intro st _; rfl
  | cons x xs ih =>
    intro st hall
    have hx : pollMergeLine st x = st := by
      cases h : extractId x with
      | none => simp [pollMergeLine, h]
      | some i =>
        have hmem : i ∈ st.seen := hall x (List.mem_cons_self x xs) i h
        simp [pollMergeLine, h, hmem]
    show pollMerge (pollMergeLine st x) xs = st
    rw [hx]
    exact ih st (fun l hl => hall l (List.mem_cons_of_mem _ hl))

lemma pollMerge_idem (st : MergeState) (b : List String) :
    pollMerge (pollMerge st b) b = pollMerge st b :=
  pollMerge_noop b _ (fun l hl i hi => pollMerge_seen_contains b st l hl i hi)

lemma pollMergeLine_good (s0 : List String) (st : MergeState) (l : String)
    (h : GoodState s0 st) : GoodState s0 (pollMergeLine st l) := by
  obtain ⟨hnd, hin, hs0⟩ := h
  cases hx : extractId l with
  | none => exact ⟨by simpa [pollMergeLine, hx] using hnd,
      by simpa [pollMergeLine, hx] using hin, by simpa [pollMergeLine, hx] using hs0⟩
  | some i =>
    by_cases hm : i ∈ st.seen
    · exact ⟨by simpa [pollMergeLine, hx, hm] using hnd,
        by simpa [pollMergeLine, hx, hm] using hin,
        by simpa [pollMergeLine, hx, hm] using hs0⟩
    · have hstate : pollMergeLine st l = ⟨i :: st.seen, st.display ++ [l]⟩ := by
        simp [pollMergeLine, hx, hm, addSeen]
      have hids : (st.display ++ [l]).filterMap extractId =
          st.display.filterMap extractId ++ [i] := by
        simp [List.filterMap_append, hx]
      have hinew : i ∉ st.display.filterMap extractId := fun hmem => hm (hin i hmem).1
      have hins0 : i ∉ s0 := fun hmem => hm (hs0 i hmem)
      rw [hstate]
      refine ⟨?_, ?_, ?_⟩
      · rw [hids]
        simp [List.nodup_append, hnd, hinew]
      · intro id hid
        rw [hids] at hid
        rcases List.mem_append.mp hid with hid | hid
        · exact ⟨List.mem_cons_of_mem _ (hin id hid).1, (hin id hid).2⟩
        · have : id = i := by simpa using hid
          subst this
          exact ⟨List.mem_cons_self _ _, hins0⟩
      · intro id hid
        exact List.mem_cons_of_mem _ (hs0 id hid)

lemma pollMerge_good (lines : List String) :
    ∀ (s0 : List String) (st : MergeState), GoodState s0 st →
      GoodState s0 (pollMerge st lines) := by
  induction lines with
  | nil => intro s0 st h; exact h
  | cons l ls ih =>
    intro s0 st h
    exact ih s0 _ (pollMergeLine_good s0 st l h)

lemma pollMergeMany_good (bs : List (List String)) :
    ∀ (s0 : List String) (st : MergeState), GoodState s0 st →
      GoodState s0 (pollMergeMany st bs) := by
  induction bs with
  | nil => intro s0 st h; exact h
  | cons b bs ih =>
    intro s0 st h
    exact ih s0 _ (pollMerge_good b s0 st h)

lemma good_init (s0 : List String) : GoodState s0 ⟨s0, []⟩ := by
  refine ⟨by simp, by simp, fun id h => h⟩

/-! ## Claim C3 -/

/-- C3: across any sequence of poll batches merged within one session
(Seen-ID Set seeded with `s0`, display starting empty), the displayed
lines carry pairwise-distinct extracted identifiers, none of which was
already seeded; moreover re-feeding any batch to the poll merge a second
time changes nothing (identifier-bearing lines are discarded as already
seen, identifier-less ones always). -/
theorem poll_merge_unique_ids (s0 : List String) (bs : List (List String)) :
    ((pollMergeMany ⟨s0, []⟩ bs).display.filterMap extractId).Nodup ∧
    (∀ id ∈ (pollMergeMany ⟨s0, []⟩ bs).display.filterMap extractId, id ∉ s0) ∧
    (∀ (st : MergeState) (b : List String),
      pollMerge (pollMerge st b) b = pollMerge st b) := by
  obtain ⟨hnd, hin, _⟩ := pollMergeMany_good bs s0 ⟨s0, []⟩ (good_init s0)
  exact ⟨hnd, fun id h => (hin id h).2, fun st b => pollMerge_idem st b⟩

/-- Witness for C3: seed `{"9"}`, feed two overlapping batches; the lone
appended identifier `"1"` is new and nothing is duplicated. -/
theorem poll_merge_unique_ids_witness :
    ((pollMergeMany ⟨["9"], []⟩
        [["[9] x", "[1] a"], ["[1] a", "Connected."]]).display.filterMap extractId).Nodup ∧
    "1" ∉ ["9"] :=
  ⟨(poll_merge_unique_ids ["9"] [["[9] x", "[1] a"], ["[1] a", "Connected."]]).1,
    (poll_merge_unique_ids ["9"] [["[9] x", "[1] a"], ["[1] a", "Connected."]]).2.1
      "1" (by decide)⟩

/-! ## Claim C5 -/

/-- C5 counterexample: the claim "the exact input text is passed
verbatim" fails for a submitted value with surrounding whitespace: the
input `" hello"` does not begin with `/`, yet the send call carries the
stripped text `"hello"`, not the exact input text `" hello"`. -/
theorem send_strips_input_cex :
    beginsWithSlash " hello" = false ∧
    on_input_submitted sampleConv sampleConfig sampleEnv " hello" =
      [Effect.sendCall "cid0" "hello", Effect.pollCycle] ∧
    Effect.sendCall "cid0" " hello" ∉
      on_input_submitted sampleConv sampleConfig sampleEnv " hello" ∧
    "hello" ≠ " hello" := by decide

/-- C5 (amended): for every submitted input whose stripped text does not
begin with `/`, the stripped text is passed to the Backend Gateway send
operation, immediately followed by exactly one out-of-band poll cycle —
the effect sequence is exactly the send call then the poll. -/
theorem send_stripped_then_one_poll (conv : Conversation) (config : Config)
    (env : CmdEnv) (value : String)
    (h : beginsWithSlash (pyStrip value) = false) :
    on_input_submitted conv config env value =
      [Effect.sendCall conv.id (pyStrip value), Effect.pollCycle] := by
  simp [on_input_submitted, h, send_message_cmd]

/-- Witness for C5's amended theorem at the input `" hi there "`. -/
theorem send_stripped_then_one_poll_witness :
    on_input_submitted sampleConv sampleConfig sampleEnv " hi there " =
      [Effect.sendCall sampleConv.id (pyStrip " hi there "), Effect.pollCycle] :=
  send_stripped_then_one_poll sampleConv sampleConfig sampleEnv " hi there " (by decide)

/-! ## Claim C6 -/

/-- C6 counterexample: a failing send is not surfaced: with the gateway
send failing (stderr `"boom"`), submitting `"hello"` produces only the
send call and the poll — no inline text is displayed at all. -/
theorem send_failure_not_surfaced_cex :
    envSendFail.sendOutcome = Except.error "boom" ∧
    on_input_submitted sampleConv sampleConfig envSendFail "hello" =
      [Effect.sendCall "cid0" "hello", Effect.pollCycle] := by
  exact ⟨rfl, by decide⟩

/-- C6 (amended): attach and download backend failures are surfaced as
inline result text containing the error detail, and the `/af` and `/df`
handlers display exactly that text; send backend failures are not
surfaced: plain-message input displays nothing whatever the send
outcome. -/
theorem backend_failure_surfacing (env : CmdEnv) (conv : Conversation)
    (config : Config) (value path fid e : String) :
    (env.fileExists path = true → env.attachOutcome = Except.error e →
      (attach_file_cmd env conv path).1 = "Error attaching file: " ++ e) ∧
    (env.downloadOutcome = Except.error e →
      (download_file_cmd env conv fid config).1 = "Error downloading file: " ++ e) ∧
    (beginsWithSlash (pyStrip value) = true →
      pyLower (splitMaxsplit1 (pyStrip value)).1 = "/af" →
      (splitMaxsplit1 (pyStrip value)).2 = path → path ≠ "" →
      env.fileExists path = true → env.attachOutcome = Except.error e →
      Effect.displayLine ("Error attaching file: " ++ e) ∈
        on_input_submitted conv config env value) ∧
    (beginsWithSlash (pyStrip value) = true →
      pyLower (splitMaxsplit1 (pyStrip value)).1 = "/df" →
      (splitMaxsplit1 (pyStrip value)).2 = fid → fid ≠ "" →
      env.downloadOutcome = Except.error e →
      Effect.displayLine ("Error downloading file: " ++ e) ∈
        on_input_submitted conv config env value) ∧
    (beginsWithSlash (pyStrip value) = false →
      ∀ t, Effect.displayLine t ∉ on_input_submitted conv config env value) := by
  refine ⟨?_, ?_, ?_, ?_, ?_⟩
  · intro hex hatt
    simp [attach_file_cmd, hex, hatt]
  · intro hdl
    simp [download_file_cmd, hdl]
  · intro h1 h2 h3 h4 hex hatt
    simp [on_input_submitted, h1, h2, h3, h4, attach_file_cmd, hex, hatt]
  · intro h1 h2 h3 h4 hdl
    simp [on_input_submitted, h1, h2, h3, h4, download_file_cmd, hdl]
  · intro h t
    simp [on_input_submitted, h, send_message_cmd]

/-- Witness for C6's amended theorem: a failing attach (`/af f.txt`), a
failing download (`/df 123`) and a failing send (`hello`). -/
theorem backend_failure_surfacing_witness :
    (attach_file_cmd envAttachFail sampleConv "f.txt").1 = "Error attaching file: " ++ "boom" ∧
    (download_file_cmd envDownloadFail sampleConv "123" sampleConfig).1 =
      "Error downloading file: " ++ "dlerr" ∧
    Effect.displayLine ("Error attaching file: " ++ "boom") ∈
      on_input_submitted sampleConv sampleConfig envAttachFail "/af f.txt" ∧
    Effect.displayLine ("Error downloading file: " ++ "dlerr") ∈
      on_input_submitted sampleConv sampleConfig envDownloadFail "/df 123" ∧
    ∀ t, Effect.displayLine t ∉ on_input_submitted sampleConv sampleConfig envSendFail "hello" :=
  ⟨(backend_failure_surfacing envAttachFail sampleConv sampleConfig "" "f.txt" "" "boom").1
      rfl rfl,
    (backend_failure_surfacing envDownloadFail sampleConv sampleConfig "" "" "123" "dlerr").2.1
      rfl,
    (backend_failure_surfacing envAttachFail sampleConv sampleConfig "/af f.txt" "f.txt" ""
      "boom").2.2.1 (by decide) (by decide) (by decide) (by decide) rfl rfl,
    (backend_failure_surfacing envDownloadFail sampleConv sampleConfig "/df 123" "" "123"
      "dlerr").2.2.2.1 (by decide) (by decide) (by decide) (by decide) rfl,
    (backend_failure_surfacing envSendFail sampleConv sampleConfig "hello" "" "" "").2.2.2.2
      (by decide)⟩

/-! ## Claim C7 -/

/-- C7 counterexample: `/cc foo` displays the switching notice and pops
the screen, but performs none of the `back` teardown (`action_pop_chat`
clears the running flag and cancels the poll task; the `/cc` path does
neither) and never re-selects the target conversation. -/
theorem cc_no_reselect_cex :
    on_input_submitted sampleConv sampleConfig sampleEnv "/cc foo" =
      [Effect.displayLine "Switching to conversation: foo", Effect.popScreen] ∧
    action_pop_chat = [Effect.setRunningFalse, Effect.cancelListen, Effect.popScreen] ∧
    Effect.cancelListen ∉ on_input_submitted sampleConv sampleConfig sampleEnv "/cc foo" ∧
    Effect.setRunningFalse ∉ on_input_submitted sampleConv sampleConfig sampleEnv "/cc foo" ∧
    Effect.pushChat "foo" ∉ on_input_submitted sampleConv sampleConfig sampleEnv "/cc foo" := by
  decide

/-- C7 (amended): `/cc` with an argument displays the switching notice
and pops the chat screen, and nothing else: unlike the `back` teardown it
neither clears the running flag nor cancels the poll task, and it never
pushes (re-selects) any conversation. -/
theorem cc_with_arg_pops_without_teardown (conv : Conversation) (config : Config)
    (env : CmdEnv) (value arg : String)
    (h1 : beginsWithSlash (pyStrip value) = true)
    (h2 : pyLower (splitMaxsplit1 (pyStrip value)).1 = "/cc")
    (h3 : (splitMaxsplit1 (pyStrip value)).2 = arg) (h4 : arg ≠ "") :
    on_input_submitted conv config env value =
      [Effect.displayLine ("Switching to conversation: " ++ arg), Effect.popScreen] ∧
    Effect.cancelListen ∈ action_pop_chat ∧
    Effect.setRunningFalse ∈ action_pop_chat ∧
    Effect.cancelListen ∉ on_input_submitted conv config env value ∧
    Effect.setRunningFalse ∉ on_input_submitted conv config env value ∧
    ∀ t, Effect.pushChat t ∉ on_input_submitted conv config env value := by
  have heff : on_input_submitted conv config env value =
      [Effect.displayLine ("Switching to conversation: " ++ arg), Effect.popScreen] := by
    simp [on_input_submitted, h1, h2, h3, h4]
  refine ⟨heff, by simp [action_pop_chat], by simp [action_pop_chat],
    by rw [heff]; simp, by rw [heff]; simp, ?_⟩
  intro t
  rw [heff]
  simp

/-- Witness for C7's amended theorem at `/cc foo`. -/
theorem cc_with_arg_pops_without_teardown_witness :
    on_input_submitted sampleConv sampleConfig sampleEnv "/cc foo" =
      [Effect.displayLine ("Switching to conversation: " ++ "foo"), Effect.popScreen] ∧
    Effect.cancelListen ∉ on_input_submitted sampleConv sampleConfig sampleEnv "/cc foo" :=
  ⟨(cc_with_arg_pops_without_teardown sampleConv sampleConfig sampleEnv "/cc foo" "foo"
      (by decide) (by decide) (by decide) (by decide)).1,
    (cc_with_arg_pops_without_teardown sampleConv sampleConfig sampleEnv "/cc foo" "foo"
      (by decide) (by decide) (by decide) (by decide)).2.2.2.1⟩

/-! ## Claim C8 -/

/-- C8: `/af` with a nonexistent path displays the descriptive "does not
exist" message and issues no gateway call; `/af` with a missing argument
displays the usage message and issues no gateway call. -/
theorem af_local_failures_no_gateway (conv : Conversation) (config : Config)
    (env : CmdEnv) (value path : String)
    (h1 : beginsWithSlash (pyStrip value) = true)
    (h2 : pyLower (splitMaxsplit1 (pyStrip value)).1 = "/af")
    (h3 : (splitMaxsplit1 (pyStrip value)).2 = path) :
    (path ≠ "" → env.fileExists path = false →
      on_input_submitted conv config env value =
        [Effect.displayLine ("File " ++ squote ++ path ++ squote ++ " does not exist.")] ∧
      ∀ s p, Effect.attachCall s p ∉ on_input_submitted conv config env value) ∧
    (path = "" →
      on_input_submitted conv config env value =
        [Effect.displayLine "Usage: /af <file_path>"] ∧
      ∀ s p, Effect.attachCall s p ∉ on_input_submitted conv config env value) := by
  constructor
  · intro h4 hex
    have heff : on_input_submitted conv config env value =
        [Effect.displayLine ("File " ++ squote ++ path ++ squote ++ " does not exist.")] := by
      simp [on_input_submitted, h1, h2, h3, h4, attach_file_cmd, hex]
    exact ⟨heff, fun s p => by rw [heff]; simp⟩
  · intro h4
    have heff : on_input_submitted conv config env value =
        [Effect.displayLine "Usage: /af <file_path>"] := by
      simp [on_input_submitted, h1, h2, h3, h4]
    exact ⟨heff, fun s p => by rw [heff]; simp⟩

/-- Witness for C8 at `/af nope.txt` (no such file in `sampleEnv`) and at
a bare `/af`. -/
theorem af_local_failures_no_gateway_witness :
    on_input_submitted sampleConv sampleConfig sampleEnv "/af nope.txt" =
      [Effect.displayLine ("File " ++ squote ++ "nope.txt" ++ squote ++ " does not exist.")] ∧
    on_input_submitted sampleConv sampleConfig sampleEnv "/af" =
      [Effect.displayLine "Usage: /af <file_path>"] :=
  ⟨((af_local_failures_no_gateway sampleConv sampleConfig sampleEnv "/af nope.txt" "nope.txt"
      (by decide) (by decide) (by decide)).1 (by decide) rfl).1,
    ((af_local_failures_no_gateway sampleConv sampleConfig sampleEnv "/af" ""
      (by decide) (by decide) (by decide)).2 rfl).1⟩

/-! ## Claim C10 -/

lemma intercalate_go_length (as : List String) :
    ∀ acc s : String, acc.data.length ≤ (String.intercalate.go acc s as).data.length := by
  induction as with
  | nil => intro acc s; simp [String.intercalate.go]
  | cons a as ih =>
    intro acc s
    have h1 : String.intercalate.go acc s (a :: as) =
        String.intercalate.go (acc ++ s ++ a) s as := rfl
    rw [h1]
    refine le_trans ?_ (ih (acc ++ s ++ a) s)
    simp [String.data_append]

/-- C10: for a non-team conversation, when filtering the current user
out of the stripped comma-separated peer list leaves nothing, the display
name falls back to the full (stripped) peer list; in particular, for a
conversation containing the (nonempty-named) current user it is not
empty. -/
theorem display_name_self_fallback (conv : Conversation) (user : String)
    (hteam : conv.channel.members_type ≠ "team")
    (hfilter : ((pySplit conv.channel.name ',').map pyStrip).filter
      (fun n => n != user) = []) :
    conversation_display_name conv user =
      String.intercalate "," ((pySplit conv.channel.name ',').map pyStrip) ∧
    (user ∈ (pySplit conv.channel.name ',').map pyStrip → user ≠ "" →
      conversation_display_name conv user ≠ "") := by
  have heq : conversation_display_name conv user =
      String.intercalate "," ((pySplit conv.channel.name ',').map pyStrip) := by
    simp [conversation_display_name, hteam, hfilter]
  refine ⟨heq, ?_⟩
  intro hmem hu
  rw [heq]
  rcases hl : (pySplit conv.channel.name ',').map pyStrip with _ | ⟨a, as⟩
  · rw [hl] at hmem; cases hmem
  · have ha : a = user := by
      have h := List.filter_eq_nil_iff.mp (hl ▸ hfilter) a (List.mem_cons_self a as)
      simpa using h
    intro hempty
    have hgo : String.intercalate "," (a :: as) = String.intercalate.go a "," as := rfl
    have hlen : a.data.length ≤ (String.intercalate "," (a :: as)).data.length := by
      rw [hgo]; exact intercalate_go_length as a ","
    rw [hempty] at hlen
    have hdata : a.data = [] := List.length_eq_zero.mp (Nat.le_zero.mp hlen)
    have haemp : a = "" := String.ext hdata
    exact hu (by rw [← ha, haemp])

/-- Witness for C10: `alice` alone in a non-team conversation named
`"alice"` renders as the full peer list (`"alice"`), not as empty. -/
theorem display_name_self_fallback_witness :
    conversation_display_name selfConv "alice" =
      String.intercalate "," ((pySplit selfConv.channel.name ',').map pyStrip) ∧
    conversation_display_name selfConv "alice" ≠ "" :=
  ⟨(display_name_self_fallback selfConv "alice" (by decide) (by decide)).1,
    (display_name_self_fallback selfConv "alice" (by decide) (by decide)).2
      (by decide) (by decide)⟩

end KeybaseChat
